import Mathlib

/-!
Shallow embedding of the core of the tosho-mango repository (a multi-source
manga downloader), faithful to the Python source:

* `Musq` — the MU source: the `ConsumeCoin` ledger model
  (`tosho_mango/sources/musq/models.py`), the `UserPoint`/`Chapter` protobuf
  records (`proto.py`) and `MUClient.calculate_coin` (`client.py`).
* `Kmkc` — the KM source: the `UserPoint` wallet and `EpisodeEntry` DTOs
  (`tosho_mango/sources/kmkc/dto.py`), `KMClientWeb.claim_bulk_episode`
  (`client.py`), the image descrambler (`imaging.py`) and the binary
  session-config store (`config.py`).

Python unsigned protobuf integers (`uint32`/`uint64`) are embedded as `Nat`;
plain Python `int` fields are embedded as `Int`; Python `bytes`/UTF-8 encoded
strings are embedded as `List Nat` (one `Nat` per byte); a Python function
that can raise is embedded as `Option`/`Except`.
-/

namespace Musq

/-- `ConsumptionType` from `tosho_mango/sources/musq/proto.py`:
the type of coin that may be used to read a chapter. -/
inductive ConsumptionType where
  | ANY_ITEMS
  | EVENT_OR_PAID
  | PAID_ONLY
  | UNRECOGNIZED
deriving DecidableEq, Repr

/-- `UserPoint` from `tosho_mango/sources/musq/proto.py`: the user's coin
balances, three `uint64` protobuf fields. -/
structure UserPoint where
  free : Nat
  event : Nat
  paid : Nat
deriving DecidableEq, Repr

/-- `UserPoint.total_point` from `proto.py`. -/
def UserPoint.total_point (u : UserPoint) : Nat :=
  u.free + u.event + u.paid

/-- The fields of `Chapter` from `tosho_mango/sources/musq/proto.py` that
`calculate_coin` reads: `price` (`uint64`) and `consumption`. -/
structure Chapter where
  price : Nat
  consumption : ConsumptionType
deriving DecidableEq, Repr

/-- `Chapter.is_free` from `proto.py`: `self.price == 0`. -/
def Chapter.is_free (c : Chapter) : Bool :=
  c.price == 0

/-- `ConsumeCoin` from `tosho_mango/sources/musq/models.py`: a dataclass of
four Python `int` fields, each defaulting to `0`. -/
structure ConsumeCoin where
  free : Int := 0
  event : Int := 0
  paid : Int := 0
  need : Int := 0
deriving DecidableEq, Repr

/-- `ConsumeCoin.is_possible` from `models.py`:
`self.free + self.event + self.paid >= self.need`. -/
def ConsumeCoin.is_possible (c : ConsumeCoin) : Bool :=
  decide (c.free + c.event + c.paid ≥ c.need)

/-- `ConsumeCoin.is_free` from `models.py`: `self.need == 0`. -/
def ConsumeCoin.is_free (c : ConsumeCoin) : Bool :=
  c.need == 0

/-- `MUClient._build_coin` from `tosho_mango/sources/musq/client.py`:
`event_coin` and `paid_coin` default to `free_coin` when not passed. -/
def build_coin (need_coin : Int) (free_coin : Int)
    (event_coin : Option Int := none) (paid_coin : Option Int := none) :
    ConsumeCoin :=
  let event_coin := match event_coin with | none => free_coin | some e => e
  let paid_coin := match paid_coin with | none => free_coin | some p => p
  { free := free_coin, event := event_coin, paid := paid_coin, need := need_coin }

/-- `MUClient.calculate_coin` from `tosho_mango/sources/musq/client.py`,
line for line.  The `case _: raise ValueError` arm (hit only for
`UNRECOGNIZED`) is embedded as `none`.  Python's `max(a - b, 0)` over
non-negative operands is embedded as `Int` subtraction followed by `max`. -/
def calculate_coin (user_point : UserPoint) (chapter : Chapter) :
    Option ConsumeCoin :=
  if chapter.is_free then
    some (build_coin 0 0)
  else
    match chapter.consumption with
    | .ANY_ITEMS =>
      -- Prioritization: Free > Event > Paid
      let free : Int := user_point.free
      let event : Int := user_point.event
      let paid : Int := user_point.paid
      let price : Int := chapter.price
      let cprice := max (price - free) 0
      if cprice ≤ 0 then
        some (build_coin price price (some 0) (some 0))
      else
        let cprice := max (cprice - event) 0
        if cprice ≤ 0 then
          let event_diff := price - free
          some (build_coin price free (some event_diff) (some 0))
        else
          let cprice := max (cprice - paid) 0
          let paid_diff := max (price - free - event) 0
          -- Even after paid, still not enough
          let paid_diff := if cprice > 0 then paid else paid_diff
          some (build_coin price free (some event) (some paid_diff))
    | .EVENT_OR_PAID =>
      let event : Int := user_point.event
      let paid : Int := user_point.paid
      let price : Int := chapter.price
      let cprice := max (price - event) 0
      if cprice ≤ 0 then
        some (build_coin price 0 (some event) (some 0))
      else
        let cprice := max (cprice - paid) 0
        let paid_diff := max (price - event) 0
        -- Even after paid, still not enough
        let paid_diff := if cprice > 0 then paid else paid_diff
        some (build_coin price 0 (some event) (some paid_diff))
    | .PAID_ONLY =>
      let paid_left : Int := (user_point.paid : Int) - (chapter.price : Int)
      if paid_left < 0 then
        some (build_coin chapter.price 0 (some 0) (some 0))
      else
        some (build_coin chapter.price 0 (some 0) (some chapter.price))
    | .UNRECOGNIZED => none

end Musq

namespace Kmkc

/-! Image descrambler, from `tosho_mango/sources/kmkc/imaging.py`.

`math.floor(a / b)` in the source is applied to Python ints whose magnitude is
far below `2 ^ 53` (pixel dimensions and 32-bit seeds), where float division
followed by `floor` agrees exactly with integer floor division, so it is
embedded as `Nat` division. -/

/-- `calc_block_size` from `imaging.py`. -/
def calc_block_size (width height rectbox : Nat) : Option Nat × Option Nat :=
  if width < rectbox ∨ height < rectbox then
    (none, none)
  else
    let n := 8
    let width := width / n * n
    let height := height / n * n
    (some (width / rectbox), some (height / rectbox))

/-- `uint32` from `imaging.py`: `x & 0xFFFFFFFF`. -/
def uint32 (x : Nat) : Nat :=
  x &&& 0xFFFFFFFF

/-- One turn of the `while True` body of `seed_generator` from `imaging.py`. -/
def xorshift_step (t : Nat) : Nat :=
  -- Clamp to unsigned 32-bit integer
  let t := uint32 (t ^^^ uint32 (t <<< 13))
  let t := uint32 (t ^^^ uint32 (t >>> 17))
  uint32 (t ^^^ uint32 (t <<< 5))

/-- `seed_generator` from `imaging.py`, as the function giving the generator's
`n`-th yielded value (0-indexed): the state starts at `uint32 base_seed` and
is stepped once before each yield. -/
def seed_generator (base_seed : Nat) : Nat → Nat
  | 0 => xorshift_step (uint32 base_seed)
  | n + 1 => xorshift_step (seed_generator base_seed n)

/-- `generate_copy_targets` from `imaging.py`: draw `rectbox ** 2` values from
the seed generator, pair each with its generation index, sort by the drawn
value (Python's stable `list.sort` with key `x[0]`), and yield
`((src_x, src_y), (dest_x, dest_y))` tile coordinates. -/
def generate_copy_targets (rectbox base_seed : Nat) :
    List ((Nat × Nat) × (Nat × Nat)) :=
  let seed_arrays :=
    (List.range (rectbox ^ 2)).map (fun i => (seed_generator base_seed i, i))
  let seed_arrays := seed_arrays.mergeSort (fun a b => a.1 ≤ b.1)
  let index_only := seed_arrays.map (fun x => x.2)
  index_only.enum.map (fun p =>
    ((p.2 % rectbox, p.2 / rectbox), (p.1 % rectbox, p.1 / rectbox)))

/-- The cells of the `rectbox × rectbox` tile grid in row-major order,
as `(x, y)` coordinates: cell `i` is `(i % rectbox, i / rectbox)`. -/
def tile_grid (rectbox n : Nat) : List (Nat × Nat) :=
  (List.range n).map (fun i => (i % rectbox, i / rectbox))

/-- A PIL raster image: dimensions plus a pixel lookup (the packed RGB value
at a coordinate). -/
structure PILImage where
  width : Nat
  height : Nat
  px : Nat → Nat → Nat

/-- `canvas.paste(im_source.crop((sx, sy, sx + bw, sy + bh)), (dx, dy, ...))`
from the loop body of `descramble_target`: overwrite the `bw × bh` rectangle
of `canvas` at `(dx, dy)` with the rectangle of `im_source` at `(sx, sy)`. -/
def paste_block (im_source canvas : PILImage) (bw bh sx sy dx dy : Nat) :
    PILImage :=
  { canvas with
    px := fun x y =>
      if dx ≤ x ∧ x < dx + bw ∧ dy ≤ y ∧ y < dy + bh then
        im_source.px (sx + (x - dx)) (sy + (y - dy))
      else
        canvas.px x y }

/-- `descramble_target` from `imaging.py`.  The `raise ValueError("Image is
too small")` branch is embedded as `Except.error`; `Image.new "RGB"` starts
from an all-black canvas. -/
def descramble_target (im_source : PILImage) (block_div scramble_seed : Nat) :
    Except String PILImage :=
  match calc_block_size im_source.width im_source.height block_div with
  | (some block_w, some block_h) =>
    let canvas : PILImage :=
      ⟨block_w * block_div, block_h * block_div, fun _ _ => 0⟩
    .ok ((generate_copy_targets block_div scramble_seed).foldl
      (fun canvas t =>
        paste_block im_source canvas block_w block_h
          (t.1.1 * block_w) (t.1.2 * block_h) (t.2.1 * block_w) (t.2.2 * block_h))
      canvas)
  | _ => .error "Image is too small"

/-! Wallet / purchase flow, from `tosho_mango/sources/kmkc/dto.py` and
`tosho_mango/sources/kmkc/client.py`. -/

/-- `UserPoint` from `tosho_mango/sources/kmkc/dto.py`: the two Python `int`
point balances (`point_sale_text` / `point_sale_finish_datetime`, which no
wallet operation reads, are omitted). -/
structure UserPoint where
  paid_point : Int
  free_point : Int
deriving DecidableEq, Repr

/-- `UserPoint.total_point` from `dto.py`. -/
def UserPoint.total_point (u : UserPoint) : Int :=
  u.paid_point + u.free_point

/-- `UserPoint.can_purchase` from `dto.py`:
`self.paid_point + self.free_point >= price`. -/
def UserPoint.can_purchase (u : UserPoint) (price : Int) : Bool :=
  decide (u.paid_point + u.free_point ≥ price)

/-- `UserPoint.subtract` from `dto.py`: a silent no-op when the total balance
cannot cover `price`, otherwise deduct from `free_point` first and the rest
from `paid_point` (in-place mutation embedded as returning the new wallet). -/
def UserPoint.subtract (u : UserPoint) (price : Int) : UserPoint :=
  if ¬ u.can_purchase price then
    u  -- silently fail
  else
    -- Subtract from free point first
    let fp_min := min u.free_point price
    let free_point := u.free_point - fp_min
    let pp_min := min u.paid_point (price - fp_min)
    { paid_point := u.paid_point - pp_min, free_point := free_point }

/-- `UserPoint.add` from `dto.py`: `self.free_point += bonus`. -/
def UserPoint.add (u : UserPoint) (bonus : Int) : UserPoint :=
  { u with free_point := u.free_point + bonus }

/-- The fields of `EpisodeEntry` from `dto.py` that `claim_bulk_episode`
reads: `episode_id`, `point` and `bonus_point` (all Python `int`). -/
structure EpisodeEntry where
  episode_id : Int
  point : Int
  bonus_point : Int
deriving DecidableEq, Repr

/-- `KMNotEnoughPointError` / `KMAPIError` from
`tosho_mango/sources/kmkc/errors.py`, as raised by the purchase flow. -/
inductive KMError where
  | notEnoughPoint
  | apiError (code : Int)
deriving DecidableEq, Repr

/-- `BulkEpisodePurchaseResponse` fields read by `claim_bulk_episode`
(`dto.py`): `paid_point` and `earned_point_back`. -/
structure BulkEpisodePurchaseResponse where
  paid_point : Int
  earned_point_back : Int
deriving DecidableEq, Repr

/-- The `# Test if all episodes can be purchased` loop of
`claim_bulk_episode` (`client.py`): walk the episode list against a deep copy
of the wallet, failing (`raise KMNotEnoughPointError`, embedded as `none`)
when the running simulated balance cannot cover an episode, and accumulating
the total `paid_point` / `bonus_point` of the list. -/
def bulk_episode_sim (wallet_copy : UserPoint) (paid_point bonus_point : Int) :
    List EpisodeEntry → Option (Int × Int)
  | [] => some (paid_point, bonus_point)
  | episode :: rest =>
    if ¬ wallet_copy.can_purchase episode.point then
      none
    else
      bulk_episode_sim ((wallet_copy.subtract episode.point).add episode.bonus_point)
        (paid_point + episode.point) (bonus_point + episode.bonus_point) rest

/-- The outcome of one call of `claim_bulk_episode`: the returned value or
raised error, the caller's wallet object after the call (it is mutated in
place by the Python code), and how many network requests were issued. -/
structure BulkCallResult where
  outcome : Except KMError UserPoint
  wallet : UserPoint
  net_calls : Nat
deriving Repr

/-- `KMClientWeb.claim_bulk_episode` from `client.py`.  The single
`POST /episode/paid/bulk` request is embedded as an oracle `net` from the
form data (episode id list, accumulated paid point, accumulated point back)
to the backend's decoded response or error. -/
def claim_bulk_episode (episodes : List EpisodeEntry) (wallet : UserPoint)
    (net : List Int → Int → Int → Except KMError BulkEpisodePurchaseResponse) :
    BulkCallResult :=
  -- Test if all episodes can be purchased (against a deep copy of `wallet`)
  match bulk_episode_sim wallet 0 0 episodes with
  | none => ⟨.error .notEnoughPoint, wallet, 0⟩
  | some (paid_point, bonus_point) =>
    match net (episodes.map (fun e => e.episode_id)) paid_point bonus_point with
    | .error e => ⟨.error e, wallet, 1⟩
    | .ok parsed =>
      let wallet := (wallet.subtract parsed.paid_point).add parsed.earned_point_back
      ⟨.ok wallet, wallet, 1⟩

/-! Session-config store, from `tosho_mango/sources/kmkc/config.py`.

The records are betterproto messages; `bytes(config)` / `Message.FromString`
use the protobuf proto3 wire format:

* a field is emitted as a varint tag `field_number * 8 + wire_type` followed
  by its payload — wire type `0` (varint payload) for integer and enum
  fields, wire type `2` (length-prefixed payload) for string and nested
  message fields;
* fields are emitted in field-number order, and a scalar field equal to its
  proto3 default (`0`, the empty string, an all-default nested message) is
  not emitted at all;
* a decoder reads tagged fields in sequence, fills absent fields with their
  defaults, and skips field numbers it does not know.

Strings are embedded as their UTF-8 byte sequences (`List Nat`), enums as
their wire integer (`KMConfigDeviceType.MOBILE = 1`, `.WEB = 2`). -/

/-- Little-endian base-128 varint encoding.  The structural `fuel` argument
(`fuel = n` always suffices, since `n / 128 < n` for `n ≥ 1`) stands in for
the unbounded loop. -/
def encode_varint_go : Nat → Nat → List Nat
  | 0, n => [n % 128]
  | fuel + 1, n =>
    if n < 128 then [n] else (n % 128 + 128) :: encode_varint_go fuel (n / 128)

/-- Varint encoding of a non-negative integer. -/
def encode_varint (n : Nat) : List Nat :=
  encode_varint_go n n

/-- Varint decoding: the decoded value and the remaining bytes. -/
def parse_varint : List Nat → Option (Nat × List Nat)
  | [] => none
  | b :: rest =>
    if b < 128 then
      some (b, rest)
    else
      match parse_varint rest with
      | none => none
      | some (m, r) => some (m * 128 + b % 128, r)

/-- A decoded wire-format field payload: a varint (wire type 0) or a
length-prefixed byte string (wire type 2). -/
inductive WireVal where
  | vint (n : Nat)
  | bytes (bs : List Nat)
deriving DecidableEq, Repr

/-- Read one tagged field off the front of a byte stream. -/
def read_field (bs : List Nat) : Option ((Nat × WireVal) × List Nat) :=
  match parse_varint bs with
  | none => none
  | some (tag, r1) =>
    let fnum := tag / 8
    let wt := tag % 8
    if wt = 0 then
      match parse_varint r1 with
      | none => none
      | some (v, r2) => some ((fnum, .vint v), r2)
    else if wt = 2 then
      match parse_varint r1 with
      | none => none
      | some (len, r2) =>
        if len ≤ r2.length then
          some ((fnum, .bytes (r2.take len)), r2.drop len)
        else
          none
    else
      none

/-- Read all tagged fields of a byte stream.  The structural `fuel` argument
(`fuel = bs.length` always suffices, since every field occupies at least one
byte) stands in for the decoding loop. -/
def parse_records_go : Nat → List Nat → Option (List (Nat × WireVal))
  | _, [] => some []
  | 0, _ :: _ => none
  | fuel + 1, bs =>
    match read_field bs with
    | none => none
    | some (f, rest) =>
      match parse_records_go fuel rest with
      | none => none
      | some fs => some (f :: fs)

/-- Parse a whole byte stream into its list of tagged fields. -/
def parse_records (bs : List Nat) : Option (List (Nat × WireVal)) :=
  parse_records_go bs.length bs

/-- `Reads bs fs`: the byte stream `bs` is exactly the concatenation of the
tagged fields `fs` (each read off in turn by `read_field`). -/
inductive Reads : List Nat → List (Nat × WireVal) → Prop where
  | nil : Reads [] []
  | cons {bs rest : List Nat} {f : Nat × WireVal} {fs : List (Nat × WireVal)} :
      read_field bs = some (f, rest) → Reads rest fs → Reads bs (f :: fs)

/-- Emit one varint-typed field (integer or enum), skipped when the value is
the proto3 default `0`. -/
def encode_varint_field (fnum v : Nat) : List Nat :=
  if v = 0 then [] else encode_varint (fnum * 8) ++ encode_varint v

/-- Emit one length-prefixed field holding the byte string `s` (a string
field, or an already-encoded nested message). -/
def encode_len_field (fnum : Nat) (s : List Nat) : List Nat :=
  encode_varint (fnum * 8 + 2) ++ encode_varint s.length ++ s

/-- Emit one string field, skipped when the value is the proto3 default
(the empty string). -/
def encode_string_field (fnum : Nat) (s : List Nat) : List Nat :=
  if s = [] then [] else encode_len_field fnum s

/-- Fold a list of decoded fields into a record via a per-record `apply`
function, starting from the record of all proto3 defaults. -/
def decode_fields {σ : Type} (apply : σ → Nat × WireVal → Option σ) :
    σ → List (Nat × WireVal) → Option σ
  | s, [] => some s
  | s, f :: fs =>
    match apply s f with
    | none => none
    | some s' => decode_fields apply s' fs

/-- `KMConfigWebKV` from `config.py`: the key-value cookie pair for the web
variant — `value` (string, field 1) and `expires` (`uint64`, field 2). -/
structure KMConfigWebKV where
  value : List Nat
  expires : Nat
deriving DecidableEq, Repr

/-- The all-default `KMConfigWebKV`. -/
def default_kv : KMConfigWebKV := ⟨[], 0⟩

/-- `bytes(kv)` for a `KMConfigWebKV`. -/
def KMConfigWebKV.toBytes (kv : KMConfigWebKV) : List Nat :=
  encode_string_field 1 kv.value ++ encode_varint_field 2 kv.expires

/-- Set one decoded field of a `KMConfigWebKV`. -/
def apply_kv_field (r : KMConfigWebKV) (f : Nat × WireVal) :
    Option KMConfigWebKV :=
  if f.1 = 1 then
    match f.2 with
    | .bytes s => some { r with value := s }
    | _ => none
  else if f.1 = 2 then
    match f.2 with
    | .vint v => some { r with expires := v }
    | _ => none
  else
    some r

/-- `KMConfigWebKV.FromString`. -/
def KMConfigWebKV.FromString (bs : List Nat) : Option KMConfigWebKV :=
  match parse_records bs with
  | none => none
  | some fs => decode_fields apply_kv_field default_kv fs

/-- Emit one nested-message field holding a `KMConfigWebKV`, skipped when the
value is the all-default message. -/
def encode_kv_field (fnum : Nat) (kv : KMConfigWebKV) : List Nat :=
  if kv = default_kv then [] else encode_len_field fnum kv.toBytes

/-- `KMConfigWeb` from `config.py`: the web session-config variant.
Field numbers: `id` 1, `type` 2, `username` 3, `email` 4, `account_id` 5,
`device_id` 6, `uwt` 100, `birthday` 101, `tos_adult` 102, `privacy` 103.
The `type` enum is carried as its wire integer (`WEB = 2`). -/
structure KMConfigWeb where
  id : List Nat
  type : Nat
  username : List Nat
  email : List Nat
  account_id : Nat
  device_id : Nat
  uwt : List Nat
  birthday : KMConfigWebKV
  tos_adult : KMConfigWebKV
  privacy : KMConfigWebKV
deriving DecidableEq, Repr

/-- The all-default `KMConfigWeb`. -/
def default_web : KMConfigWeb :=
  ⟨[], 0, [], [], 0, 0, [], default_kv, default_kv, default_kv⟩

/-- `bytes(config)` for a `KMConfigWeb`. -/
def KMConfigWeb.toBytes (c : KMConfigWeb) : List Nat :=
  encode_string_field 1 c.id ++
  encode_varint_field 2 c.type ++
  encode_string_field 3 c.username ++
  encode_string_field 4 c.email ++
  encode_varint_field 5 c.account_id ++
  encode_varint_field 6 c.device_id ++
  encode_string_field 100 c.uwt ++
  encode_kv_field 101 c.birthday ++
  encode_kv_field 102 c.tos_adult ++
  encode_kv_field 103 c.privacy

/-- Set one decoded field of a `KMConfigWeb`. -/
def apply_web_field (r : KMConfigWeb) (f : Nat × WireVal) :
    Option KMConfigWeb :=
  if f.1 = 1 then
    match f.2 with
    | .bytes s => some { r with id := s }
    | _ => none
  else if f.1 = 2 then
    match f.2 with
    | .vint v => some { r with type := v }
    | _ => none
  else if f.1 = 3 then
    match f.2 with
    | .bytes s => some { r with username := s }
    | _ => none
  else if f.1 = 4 then
    match f.2 with
    | .bytes s => some { r with email := s }
    | _ => none
  else if f.1 = 5 then
    match f.2 with
    | .vint v => some { r with account_id := v }
    | _ => none
  else if f.1 = 6 then
    match f.2 with
    | .vint v => some { r with device_id := v }
    | _ => none
  else if f.1 = 100 then
    match f.2 with
    | .bytes s => some { r with uwt := s }
    | _ => none
  else if f.1 = 101 then
    match f.2 with
    | .bytes b =>
      match KMConfigWebKV.FromString b with
      | none => none
      | some kv => some { r with birthday := kv }
    | _ => none
  else if f.1 = 102 then
    match f.2 with
    | .bytes b =>
      match KMConfigWebKV.FromString b with
      | none => none
      | some kv => some { r with tos_adult := kv }
    | _ => none
  else if f.1 = 103 then
    match f.2 with
    | .bytes b =>
      match KMConfigWebKV.FromString b with
      | none => none
      | some kv => some { r with privacy := kv }
    | _ => none
  else
    some r

/-- `KMConfigWeb.FromString`. -/
def KMConfigWeb.FromString (bs : List Nat) : Option KMConfigWeb :=
  match parse_records bs with
  | none => none
  | some fs => decode_fields apply_web_field default_web fs

/-- `KMConfigMobile` from `config.py`: the mobile session-config variant.
Field numbers: `id` 1, `type` 2, `username` 3, `email` 4, `account_id` 5,
`device_id` 6, `user_id` 100, `user_secret` 101.  The `type` enum is carried
as its wire integer (`MOBILE = 1`). -/
structure KMConfigMobile where
  id : List Nat
  type : Nat
  username : List Nat
  email : List Nat
  account_id : Nat
  device_id : Nat
  user_id : List Nat
  user_secret : List Nat
deriving DecidableEq, Repr

/-- The all-default `KMConfigMobile`. -/
def default_mobile : KMConfigMobile :=
  ⟨[], 0, [], [], 0, 0, [], []⟩

/-- `bytes(config)` for a `KMConfigMobile`. -/
def KMConfigMobile.toBytes (c : KMConfigMobile) : List Nat :=
  encode_string_field 1 c.id ++
  encode_varint_field 2 c.type ++
  encode_string_field 3 c.username ++
  encode_string_field 4 c.email ++
  encode_varint_field 5 c.account_id ++
  encode_varint_field 6 c.device_id ++
  encode_string_field 100 c.user_id ++
  encode_string_field 101 c.user_secret

/-- Set one decoded field of a `KMConfigMobile`. -/
def apply_mobile_field (r : KMConfigMobile) (f : Nat × WireVal) :
    Option KMConfigMobile :=
  if f.1 = 1 then
    match f.2 with
    | .bytes s => some { r with id := s }
    | _ => none
  else if f.1 = 2 then
    match f.2 with
    | .vint v => some { r with type := v }
    | _ => none
  else if f.1 = 3 then
    match f.2 with
    | .bytes s => some { r with username := s }
    | _ => none
  else if f.1 = 4 then
    match f.2 with
    | .bytes s => some { r with email := s }
    | _ => none
  else if f.1 = 5 then
    match f.2 with
    | .vint v => some { r with account_id := v }
    | _ => none
  else if f.1 = 6 then
    match f.2 with
    | .vint v => some { r with device_id := v }
    | _ => none
  else if f.1 = 100 then
    match f.2 with
    | .bytes s => some { r with user_id := s }
    | _ => none
  else if f.1 = 101 then
    match f.2 with
    | .bytes s => some { r with user_secret := s }
    | _ => none
  else
    some r

/-- `KMConfigMobile.FromString`. -/
def KMConfigMobile.FromString (bs : List Nat) : Option KMConfigMobile :=
  match parse_records bs with
  | none => none
  | some fs => decode_fields apply_mobile_field default_mobile fs

/-- `_KMConfigBase` from `config.py`: the leading fields shared by both
variants, used by the loader to dispatch on the type tag — `id` (string,
field 1) and `type` (enum, field 2); every other field number is skipped. -/
structure KMConfigBase where
  id : List Nat
  type : Nat
deriving DecidableEq, Repr

/-- Set one decoded field of a `_KMConfigBase` (unknown numbers skipped). -/
def apply_base_field (r : KMConfigBase) (f : Nat × WireVal) :
    Option KMConfigBase :=
  if f.1 = 1 then
    match f.2 with
    | .bytes s => some { r with id := s }
    | _ => none
  else if f.1 = 2 then
    match f.2 with
    | .vint v => some { r with type := v }
    | _ => none
  else
    some r

/-- `_KMConfigBase.FromString`. -/
def KMConfigBase.FromString (bs : List Nat) : Option KMConfigBase :=
  match parse_records bs with
  | none => none
  | some fs => decode_fields apply_base_field ⟨[], 0⟩ fs

/-- A loaded session config: one of the two variants. -/
inductive KMConfig where
  | web (c : KMConfigWeb)
  | mobile (c : KMConfigMobile)
deriving DecidableEq, Repr

/-- The decode-and-dispatch core shared by `get_config` and
`get_all_config` (`config.py`): decode the leading fields as
`_KMConfigBase`, inspect the type tag, and re-decode the same bytes with the
matching variant decoder (`WEB = 2` is tested first, then `MOBILE = 1`);
an unknown tag raises `ValueError("Unknown device type ...")`.  Malformed
bytes (which make betterproto raise) are embedded as a parse error. -/
def load_config (conf_bita : List Nat) : Except String KMConfig :=
  match KMConfigBase.FromString conf_bita with
  | none => .error "parse error"
  | some conf_temp =>
    if conf_temp.type = 2 then
      match KMConfigWeb.FromString conf_bita with
      | none => .error "parse error"
      | some c => .ok (.web c)
    else if conf_temp.type = 1 then
      match KMConfigMobile.FromString conf_bita with
      | none => .error "parse error"
      | some c => .ok (.mobile c)
    else
      .error "Unknown device type"

/-- `get_all_config` from `config.py`, over the byte contents of the files
matched by the `kmkc.*.tmconf` glob: each file is decoded and dispatched in
turn, appending to `parsed_conf`; a raise at any file propagates out of the
loop (embedded as the whole call returning that error). -/
def get_all_config : List (List Nat) → Except String (List KMConfig)
  | [] => .ok []
  | conf :: rest =>
    match load_config conf with
    | .error e => .error e
    | .ok c =>
      match get_all_config rest with
      | .error e => .error e
      | .ok cs => .ok (c :: cs)

end Kmkc

/-! ## Theorems -/

/-- C10: for every `ConsumeCoin`, `is_possible()` holds iff
`free + event + paid ≥ need` and `is_free` holds iff `need = 0`; in
particular `free=20, event=0, paid=0, need=10` is possible and
`free=10, event=5, paid=2, need=20` is not. -/
theorem consume_coin_is_possible_iff :
    (∀ c : Musq.ConsumeCoin,
       (c.is_possible = true ↔ c.free + c.event + c.paid ≥ c.need) ∧
       (c.is_free = true ↔ c.need = 0)) ∧
    (Musq.ConsumeCoin.mk 20 0 0 10).is_possible = true ∧
    (Musq.ConsumeCoin.mk 10 5 2 20).is_possible = false := by
  refine ⟨fun c => ⟨?_, ?_⟩, by decide, by decide⟩
  · simp [Musq.ConsumeCoin.is_possible]
  · simp [Musq.ConsumeCoin.is_free]

/-- C5: the xorshift32 seed generator started from seed `749191485` yields
exactly `1149330653, 1799678672, 902605375, 2984793402` as its first four
outputs. -/
theorem seed_generator_golden_vector :
    [Kmkc.seed_generator 749191485 0, Kmkc.seed_generator 749191485 1,
     Kmkc.seed_generator 749191485 2, Kmkc.seed_generator 749191485 3] =
    [1149330653, 1799678672, 902605375, 2984793402] := by
  decide

/-- C7: `calc_block_size` returns `(none, none)` whenever `width < rectbox`
or `height < rectbox`, and otherwise returns each dimension clamped down to
a multiple of 8 and then divided by `rectbox`; in particular
`calc_block_size 960 1378 4 = (240, 344)` and
`calc_block_size 1 1 4 = (none, none)`. -/
theorem calc_block_size_spec (width height rectbox : Nat) (_hr : 0 < rectbox) :
    ((width < rectbox ∨ height < rectbox) →
       Kmkc.calc_block_size width height rectbox = (none, none)) ∧
    (rectbox ≤ width → rectbox ≤ height →
       Kmkc.calc_block_size width height rectbox =
         (some ((width - width % 8) / rectbox),
          some ((height - height % 8) / rectbox))) ∧
    Kmkc.calc_block_size 960 1378 4 = (some 240, some 344) ∧
    Kmkc.calc_block_size 1 1 4 = (none, none) := by
  refine ⟨fun h => ?_, fun h1 h2 => ?_, by decide, by decide⟩
  · rw [Kmkc.calc_block_size, if_pos h]
  · have hw : width / 8 * 8 = width - width % 8 := by
      have := Nat.div_add_mod width 8; omega
    have hh : height / 8 * 8 = height - height % 8 := by
      have := Nat.div_add_mod height 8; omega
    rw [Kmkc.calc_block_size, if_neg (by omega)]
    simp only [hw, hh]

/-- Witness for C7 at the spec's two golden inputs. -/
theorem calc_block_size_spec_witness :
    Kmkc.calc_block_size 960 1378 4 = (some 240, some 344) ∧
    Kmkc.calc_block_size 1 1 4 = (none, none) :=
  (calc_block_size_spec 960 1378 4 (by decide)).2.2

/-- C1 (failing input): in Event-or-paid mode with balance
`free=0, event=10, paid=0` and a chapter of price `5`, `calculate_coin`
returns `ConsumeCoin(free=0, event=10, paid=0, need=5)`, whose components
sum to `10 > 5`: the event component is the full event balance rather than
the chapter price, so the components do not sum to at most the price. -/
theorem calculate_coin_event_or_paid_overdraw :
    Musq.calculate_coin ⟨0, 10, 0⟩ ⟨5, .EVENT_OR_PAID⟩ =
      some { free := 0, event := 10, paid := 0, need := 5 } ∧
    ¬ ((0 : Int) + 10 + 0 ≤ 5) := by
  exact ⟨by decide, by decide⟩

/-- C3: `UserPoint.subtract` on a wallet with non-negative balances is a
silent no-op when `price` exceeds the total balance, and otherwise deducts
`min free_point price` from the free balance and the remaining price from
the paid balance, decreasing the total by exactly `price` and keeping both
balances non-negative. -/
theorem user_point_subtract_spec (u : Kmkc.UserPoint) (price : Int)
    (hf : 0 ≤ u.free_point) (hp : 0 ≤ u.paid_point) :
    (u.total_point < price → u.subtract price = u) ∧
    (price ≤ u.total_point →
       (u.subtract price).free_point = u.free_point - min u.free_point price ∧
       (u.subtract price).paid_point =
         u.paid_point - (price - min u.free_point price) ∧
       (u.subtract price).total_point = u.total_point - price ∧
       0 ≤ (u.subtract price).free_point ∧
       0 ≤ (u.subtract price).paid_point) := by
  obtain ⟨pp, fp⟩ := u
  simp only [Kmkc.UserPoint.total_point, Kmkc.UserPoint.subtract,
    Kmkc.UserPoint.can_purchase] at *
  constructor
  · intro h
    rw [if_pos (by simpa using by omega)]
  · intro h
    rw [if_neg (by simpa using by omega)]
    simp only [Kmkc.UserPoint.total_point]
    simp
    omega

/-- Witness for C3 at the wallet `paid=5, free=10`: an affordable price `12`
and an unaffordable price `16`. -/
theorem user_point_subtract_spec_witness :
    ((Kmkc.UserPoint.mk 5 10).total_point < 16 →
       (Kmkc.UserPoint.mk 5 10).subtract 16 = ⟨5, 10⟩) ∧
    ((12 : Int) ≤ (Kmkc.UserPoint.mk 5 10).total_point →
       ((Kmkc.UserPoint.mk 5 10).subtract 12).free_point = 10 - min 10 12 ∧
       ((Kmkc.UserPoint.mk 5 10).subtract 12).paid_point =
         5 - (12 - min 10 12) ∧
       ((Kmkc.UserPoint.mk 5 10).subtract 12).total_point =
         (Kmkc.UserPoint.mk 5 10).total_point - 12 ∧
       0 ≤ ((Kmkc.UserPoint.mk 5 10).subtract 12).free_point ∧
       0 ≤ ((Kmkc.UserPoint.mk 5 10).subtract 12).paid_point) :=
  ⟨(user_point_subtract_spec ⟨5, 10⟩ 16 (by decide) (by decide)).1,
   (user_point_subtract_spec ⟨5, 10⟩ 12 (by decide) (by decide)).2⟩

/-- C2: when any episode of the list is unaffordable against the simulated
running balance (the wallet-copy walk `bulk_episode_sim` fails),
`claim_bulk_episode` raises `KMNotEnoughPointError` with zero network
requests issued — for every possible backend — and the caller's wallet is
returned unchanged. -/
theorem claim_bulk_episode_fail_fast (episodes : List Kmkc.EpisodeEntry)
    (wallet : Kmkc.UserPoint)
    (net : List Int → Int → Int →
      Except Kmkc.KMError Kmkc.BulkEpisodePurchaseResponse)
    (h : Kmkc.bulk_episode_sim wallet 0 0 episodes = none) :
    Kmkc.claim_bulk_episode episodes wallet net =
      ⟨.error .notEnoughPoint, wallet, 0⟩ := by
  unfold Kmkc.claim_bulk_episode
  rw [h]

/-- Witness for C2: an empty wallet cannot buy a 10-point episode, so the
bulk claim fails fast even against a backend that would accept it. -/
theorem claim_bulk_episode_fail_fast_witness :
    Kmkc.bulk_episode_sim ⟨0, 0⟩ 0 0 [⟨1, 10, 0⟩] = none ∧
    Kmkc.claim_bulk_episode [⟨1, 10, 0⟩] ⟨0, 0⟩ (fun _ _ _ => .ok ⟨0, 0⟩) =
      ⟨.error .notEnoughPoint, ⟨0, 0⟩, 0⟩ :=
  ⟨by decide,
   claim_bulk_episode_fail_fast [⟨1, 10, 0⟩] ⟨0, 0⟩ _ (by decide)⟩

/-- C6: for `rectbox ≥ 1` and any seed, `generate_copy_targets` yields
exactly `rectbox ^ 2` (source, destination) pairs; the destinations are
every cell of the tile grid in row-major order, and the sources are a
permutation of the grid, so the copy map is a bijection on tiles. -/
theorem generate_copy_targets_bijection (rectbox base_seed : Nat)
    (_h : 1 ≤ rectbox) :
    (Kmkc.generate_copy_targets rectbox base_seed).length = rectbox ^ 2 ∧
    (Kmkc.generate_copy_targets rectbox base_seed).map Prod.snd =
      Kmkc.tile_grid rectbox (rectbox ^ 2) ∧
    ((Kmkc.generate_copy_targets rectbox base_seed).map Prod.fst).Perm
      (Kmkc.tile_grid rectbox (rectbox ^ 2)) := by
  unfold Kmkc.generate_copy_targets Kmkc.tile_grid
  have hlen :
      (((List.range (rectbox ^ 2)).map
          (fun i => (Kmkc.seed_generator base_seed i, i))).mergeSort
            (fun a b => a.1 ≤ b.1)).length = rectbox ^ 2 := by
    rw [List.length_mergeSort, List.length_map, List.length_range]
  refine ⟨?_, ?_, ?_⟩
  · rw [List.length_map, List.enum_length, List.length_map, hlen]
  · rw [List.map_map]
    rw [show ((Prod.snd ∘ fun p : Nat × Nat =>
        ((p.2 % rectbox, p.2 / rectbox), (p.1 % rectbox, p.1 / rectbox))) =
        ((fun i => (i % rectbox, i / rectbox)) ∘ Prod.fst)) from rfl]
    rw [← List.map_map, List.enum_map_fst, List.length_map, hlen]
  · rw [List.map_map]
    rw [show ((Prod.fst ∘ fun p : Nat × Nat =>
        ((p.2 % rectbox, p.2 / rectbox), (p.1 % rectbox, p.1 / rectbox))) =
        ((fun s => (s % rectbox, s / rectbox)) ∘ Prod.snd)) from rfl]
    rw [← List.map_map, List.enum_map_snd]
    refine List.Perm.map _ ?_
    have hperm :=
      (List.mergeSort_perm
        ((List.range (rectbox ^ 2)).map
          (fun i => (Kmkc.seed_generator base_seed i, i)))
        (fun a b => a.1 ≤ b.1)).map Prod.snd
    rw [List.map_map] at hperm
    rw [show (Prod.snd ∘ fun i : Nat => (Kmkc.seed_generator base_seed i, i)) =
        id from rfl, List.map_id] at hperm
    exact hperm

/-- Witness for C6 at the spec's golden parameters `rectbox = 4`,
`seed = 749191485`. -/
theorem generate_copy_targets_bijection_witness :
    (Kmkc.generate_copy_targets 4 749191485).length = 4 ^ 2 ∧
    (Kmkc.generate_copy_targets 4 749191485).map Prod.snd =
      Kmkc.tile_grid 4 (4 ^ 2) ∧
    ((Kmkc.generate_copy_targets 4 749191485).map Prod.fst).Perm
      (Kmkc.tile_grid 4 (4 ^ 2)) :=
  generate_copy_targets_bijection 4 749191485 (by decide)

/-- The paste loop of `descramble_target` never changes the canvas
dimensions. -/
theorem paste_foldl_dims (im : Kmkc.PILImage) (bw bh : Nat)
    (l : List ((Nat × Nat) × (Nat × Nat))) (canvas : Kmkc.PILImage) :
    ((l.foldl
        (fun canvas t =>
          Kmkc.paste_block im canvas bw bh
            (t.1.1 * bw) (t.1.2 * bh) (t.2.1 * bw) (t.2.2 * bh))
        canvas).width = canvas.width ∧
     (l.foldl
        (fun canvas t =>
          Kmkc.paste_block im canvas bw bh
            (t.1.1 * bw) (t.1.2 * bh) (t.2.1 * bw) (t.2.2 * bh))
        canvas).height = canvas.height) := by
  induction l generalizing canvas with
  | nil => exact ⟨rfl, rfl⟩
  | cons x xs ih => simpa [Kmkc.paste_block] using ih _

/-- C8: `descramble_target` fails with the malformed-image
`ValueError "Image is too small"` exactly when a source dimension is below
`block_div`; for images at least `block_div` in both dimensions it always
returns a descrambled canvas (of the block-aligned dimensions), so the error
branch is unreachable there. -/
theorem descramble_target_too_small (im : Kmkc.PILImage)
    (block_div scramble_seed : Nat) (_hd : 1 ≤ block_div) :
    ((im.width < block_div ∨ im.height < block_div) →
       Kmkc.descramble_target im block_div scramble_seed =
         .error "Image is too small") ∧
    (block_div ≤ im.width → block_div ≤ im.height →
       ∃ out, Kmkc.descramble_target im block_div scramble_seed = .ok out ∧
         out.width = im.width / 8 * 8 / block_div * block_div ∧
         out.height = im.height / 8 * 8 / block_div * block_div) := by
  constructor
  · intro h
    have hc : Kmkc.calc_block_size im.width im.height block_div =
        (none, none) := by
      rw [Kmkc.calc_block_size, if_pos h]
    rw [Kmkc.descramble_target, hc]
  · intro h1 h2
    have hc : Kmkc.calc_block_size im.width im.height block_div =
        (some (im.width / 8 * 8 / block_div),
         some (im.height / 8 * 8 / block_div)) := by
      rw [Kmkc.calc_block_size, if_neg (by omega)]
    rw [Kmkc.descramble_target, hc]
    refine ⟨_, rfl, ?_, ?_⟩
    · rw [(paste_foldl_dims im _ _ _ _).1]
    · rw [(paste_foldl_dims im _ _ _ _).2]

/-- Witness for C8: a 1×1 image with `block_div = 4` produces the
malformed-image error. -/
theorem descramble_target_too_small_witness :
    Kmkc.descramble_target ⟨1, 1, fun _ _ => 0⟩ 4 749191485 =
      .error "Image is too small" :=
  (descramble_target_too_small ⟨1, 1, fun _ _ => 0⟩ 4 749191485
    (by decide)).1 (Or.inl (by decide))

/-! ### Wire-format helper lemmas -/

/-- Varint decode inverts varint encode (fuel-general form). -/
theorem parse_varint_encode_go (fuel : Nat) :
    ∀ (n : Nat) (rest : List Nat), n ≤ fuel →
      Kmkc.parse_varint (Kmkc.encode_varint_go fuel n ++ rest) =
        some (n, rest) := by
  induction fuel with
  | zero =>
    intro n rest hn
    have h0 : n = 0 := by omega
    subst h0
    simp [Kmkc.encode_varint_go, Kmkc.parse_varint]
  | succ fuel ih =>
    intro n rest hn
    by_cases h : n < 128
    · simp [Kmkc.encode_varint_go, Kmkc.parse_varint, h]
    · rw [Kmkc.encode_varint_go, if_neg h, List.cons_append, Kmkc.parse_varint]
      rw [if_neg (by omega)]
      rw [ih (n / 128) rest (by omega)]
      have h2 : n / 128 * 128 + n % 128 = n := by
        have := Nat.div_add_mod n 128
        omega
      simp [h2]

/-- Varint decode inverts varint encode. -/
theorem parse_varint_encode (n : Nat) (rest : List Nat) :
    Kmkc.parse_varint (Kmkc.encode_varint n ++ rest) = some (n, rest) :=
  parse_varint_encode_go n n rest le_rfl

/-- Reading one varint-payload field off an encoded stream. -/
theorem read_field_vint (fnum v : Nat) (rest : List Nat) :
    Kmkc.read_field
        (Kmkc.encode_varint (fnum * 8) ++ (Kmkc.encode_varint v ++ rest)) =
      some ((fnum, .vint v), rest) := by
  rw [Kmkc.read_field, parse_varint_encode]
  have h8 : fnum * 8 / 8 = fnum := by omega
  have h0 : fnum * 8 % 8 = 0 := by omega
  simp [h8, h0, parse_varint_encode]

/-- Reading one length-prefixed field off an encoded stream. -/
theorem read_field_len (fnum : Nat) (s rest : List Nat) :
    Kmkc.read_field
        (Kmkc.encode_varint (fnum * 8 + 2) ++
          (Kmkc.encode_varint s.length ++ (s ++ rest))) =
      some ((fnum, .bytes s), rest) := by
  rw [Kmkc.read_field, parse_varint_encode]
  have h8 : (fnum * 8 + 2) / 8 = fnum := by omega
  have h2 : (fnum * 8 + 2) % 8 = 2 := by omega
  simp only [h8, h2, if_true]
  rw [if_neg (by omega : ¬(2 = 0))]
  rw [parse_varint_encode]
  dsimp only
  rw [if_pos (by simp : s.length ≤ (s ++ rest).length)]
  rw [List.take_left, List.drop_left]

/-- A successful varint parse consumes at least one byte. -/
theorem parse_varint_length :
    ∀ {bs : List Nat} {n : Nat} {r : List Nat},
      Kmkc.parse_varint bs = some (n, r) → r.length < bs.length := by
  intro bs
  induction bs with
  | nil => intro n r h; simp [Kmkc.parse_varint] at h
  | cons b rest ih =>
    intro n r h
    rw [Kmkc.parse_varint] at h
    by_cases hb : b < 128
    · rw [if_pos hb] at h
      cases h
      simp
    · rw [if_neg hb] at h
      match hrec : Kmkc.parse_varint rest with
      | none => rw [hrec] at h; cases h
      | some (m, r') =>
        rw [hrec] at h
        cases h
        have := ih hrec
        simp
        omega

/-- A successful field read consumes at least one byte. -/
theorem read_field_length {bs : List Nat} {f : Nat × Kmkc.WireVal}
    {rest : List Nat} (h : Kmkc.read_field bs = some (f, rest)) :
    rest.length < bs.length := by
  rw [Kmkc.read_field] at h
  split at h
  next => exact absurd h (by simp)
  next tag r1 h1 =>
    have hr1 := parse_varint_length h1
    dsimp only at h
    by_cases hw0 : tag % 8 = 0
    · rw [if_pos hw0] at h
      split at h
      next => exact absurd h (by simp)
      next v r2 h2 =>
        cases h
        have := parse_varint_length h2
        omega
    · rw [if_neg hw0] at h
      by_cases hw2 : tag % 8 = 2
      · rw [if_pos hw2] at h
        split at h
        next => exact absurd h (by simp)
        next len r2 h2 =>
          have hr2 := parse_varint_length h2
          split at h
          · cases h
            have hd : (r2.drop len).length = r2.length - len := by simp
            omega
          · exact absurd h (by simp)
      · rw [if_neg hw2] at h
        exact absurd h (by simp)

/-- `parse_records_go` recovers the field list of a `Reads` decomposition,
for any sufficient fuel. -/
theorem parse_records_go_of_reads {bs : List Nat}
    {fs : List (Nat × Kmkc.WireVal)} (h : Kmkc.Reads bs fs) :
    ∀ fuel, bs.length ≤ fuel → Kmkc.parse_records_go fuel bs = some fs := by
  induction h with
  | nil => intro fuel _; cases fuel <;> rfl
  | @cons bs rest f fs hread hreads ih =>
    intro fuel hfuel
    cases bs with
    | nil =>
      exfalso
      simp [Kmkc.read_field, Kmkc.parse_varint] at hread
    | cons b bs' =>
      have hlt := read_field_length hread
      cases fuel with
      | zero => simp at hfuel
      | succ fuel' =>
        have hle : rest.length ≤ fuel' := by
          have ha : rest.length < bs'.length + 1 := by simpa using hlt
          have hb : bs'.length + 1 ≤ fuel' + 1 := by simpa using hfuel
          omega
        rw [Kmkc.parse_records_go, hread]
        dsimp only
        rw [ih fuel' hle]
        simp

/-- `parse_records` recovers the field list of a `Reads` decomposition. -/
theorem parse_records_of_reads {bs : List Nat}
    {fs : List (Nat × Kmkc.WireVal)} (h : Kmkc.Reads bs fs) :
    Kmkc.parse_records bs = some fs :=
  parse_records_go_of_reads h bs.length le_rfl

/-- Emitting an optional varint field prepends its tagged value (when
non-default) to any `Reads` decomposition. -/
theorem reads_varint_field (fnum v : Nat) {rest : List Nat}
    {fs : List (Nat × Kmkc.WireVal)} (h : Kmkc.Reads rest fs) :
    Kmkc.Reads (Kmkc.encode_varint_field fnum v ++ rest)
      ((if v = 0 then [] else [(fnum, .vint v)]) ++ fs) := by
  by_cases hv : v = 0
  · rw [Kmkc.encode_varint_field, if_pos hv, if_pos hv]
    simpa using h
  · rw [Kmkc.encode_varint_field, if_neg hv, if_neg hv, List.append_assoc]
    exact Kmkc.Reads.cons (read_field_vint fnum v rest) h

/-- Emitting an optional string field prepends its tagged value (when
non-default) to any `Reads` decomposition. -/
theorem reads_string_field (fnum : Nat) (s : List Nat) {rest : List Nat}
    {fs : List (Nat × Kmkc.WireVal)} (h : Kmkc.Reads rest fs) :
    Kmkc.Reads (Kmkc.encode_string_field fnum s ++ rest)
      ((if s = [] then [] else [(fnum, .bytes s)]) ++ fs) := by
  by_cases hs : s = []
  · rw [Kmkc.encode_string_field, if_pos hs, if_pos hs]
    simpa using h
  · rw [Kmkc.encode_string_field, if_neg hs, Kmkc.encode_len_field, if_neg hs]
    simp only [List.append_assoc]
    exact Kmkc.Reads.cons (read_field_len fnum s rest) h

/-- Emitting an optional nested-message field prepends its tagged encoded
body (when non-default) to any `Reads` decomposition. -/
theorem reads_kv_field (fnum : Nat) (kv : Kmkc.KMConfigWebKV)
    {rest : List Nat} {fs : List (Nat × Kmkc.WireVal)}
    (h : Kmkc.Reads rest fs) :
    Kmkc.Reads (Kmkc.encode_kv_field fnum kv ++ rest)
      ((if kv = Kmkc.default_kv then [] else [(fnum, .bytes kv.toBytes)]) ++
        fs) := by
  by_cases hkv : kv = Kmkc.default_kv
  · rw [Kmkc.encode_kv_field, if_pos hkv, if_pos hkv]
    simpa using h
  · rw [Kmkc.encode_kv_field, if_neg hkv, if_neg hkv, Kmkc.encode_len_field]
    simp only [List.append_assoc]
    exact Kmkc.Reads.cons (read_field_len fnum kv.toBytes rest) h

/-- Folding one optionally-emitted field into a record: skipped when the
value is the default (the record already holds it), applied otherwise. -/
theorem decode_fields_opt {σ : Type} (apply : σ → Nat × Kmkc.WireVal → Option σ)
    (cond : Prop) [Decidable cond] (f : Nat × Kmkc.WireVal)
    {s s' : σ} (fs : List (Nat × Kmkc.WireVal))
    (happly : apply s f = some s') (hdef : cond → s = s') :
    Kmkc.decode_fields apply s ((if cond then [] else [f]) ++ fs) =
      Kmkc.decode_fields apply s' fs := by
  by_cases hc : cond
  · rw [if_pos hc, List.nil_append, hdef hc]
  · rw [if_neg hc, List.singleton_append]
    simp only [Kmkc.decode_fields, happly]

/-- Folding the `value` field of a `KMConfigWebKV`. -/
theorem kv_fold_value (r : Kmkc.KMConfigWebKV) (v : List Nat)
    (hr : r.value = []) (fs : List (Nat × Kmkc.WireVal)) :
    Kmkc.decode_fields Kmkc.apply_kv_field r
        ((if v = [] then [] else [(1, .bytes v)]) ++ fs) =
      Kmkc.decode_fields Kmkc.apply_kv_field { r with value := v } fs :=
  decode_fields_opt _ _ _ _ (by simp [Kmkc.apply_kv_field])
    (fun hc => by rw [hc, ← hr])

/-- Folding the `expires` field of a `KMConfigWebKV`. -/
theorem kv_fold_expires (r : Kmkc.KMConfigWebKV) (v : Nat)
    (hr : r.expires = 0) (fs : List (Nat × Kmkc.WireVal)) :
    Kmkc.decode_fields Kmkc.apply_kv_field r
        ((if v = 0 then [] else [(2, .vint v)]) ++ fs) =
      Kmkc.decode_fields Kmkc.apply_kv_field { r with expires := v } fs :=
  decode_fields_opt _ _ _ _ (by simp [Kmkc.apply_kv_field])
    (fun hc => by rw [hc, ← hr])

/-- Round trip for the nested cookie key-value message. -/
theorem kv_roundtrip (kv : Kmkc.KMConfigWebKV) :
    Kmkc.KMConfigWebKV.FromString kv.toBytes = some kv := by
  have hr := reads_string_field 1 kv.value
    (reads_varint_field 2 kv.expires Kmkc.Reads.nil)
  have hbytes : kv.toBytes =
      Kmkc.encode_string_field 1 kv.value ++
        (Kmkc.encode_varint_field 2 kv.expires ++ []) := by
    simp [Kmkc.KMConfigWebKV.toBytes]
  rw [Kmkc.KMConfigWebKV.FromString, hbytes, parse_records_of_reads hr]
  dsimp only
  rw [kv_fold_value, kv_fold_expires]
  all_goals rfl

/-- Folding the `id` field of a `KMConfigWeb`. -/
theorem web_fold_id (r : Kmkc.KMConfigWeb) (v : List Nat)
    (hr : r.id = []) (fs : List (Nat × Kmkc.WireVal)) :
    Kmkc.decode_fields Kmkc.apply_web_field r
        ((if v = [] then [] else [(1, .bytes v)]) ++ fs) =
      Kmkc.decode_fields Kmkc.apply_web_field { r with id := v } fs :=
  decode_fields_opt _ _ _ _ (by simp [Kmkc.apply_web_field])
    (fun hc => by rw [hc, ← hr])

/-- Folding the `type` field of a `KMConfigWeb`. -/
theorem web_fold_type (r : Kmkc.KMConfigWeb) (v : Nat)
    (hr : r.type = 0) (fs : List (Nat × Kmkc.WireVal)) :
    Kmkc.decode_fields Kmkc.apply_web_field r
        ((if v = 0 then [] else [(2, .vint v)]) ++ fs) =
      Kmkc.decode_fields Kmkc.apply_web_field { r with type := v } fs :=
  decode_fields_opt _ _ _ _ (by simp [Kmkc.apply_web_field])
    (fun hc => by rw [hc, ← hr])

/-- Folding the `username` field of a `KMConfigWeb`. -/
theorem web_fold_username (r : Kmkc.KMConfigWeb) (v : List Nat)
    (hr : r.username = []) (fs : List (Nat × Kmkc.WireVal)) :
    Kmkc.decode_fields Kmkc.apply_web_field r
        ((if v = [] then [] else [(3, .bytes v)]) ++ fs) =
      Kmkc.decode_fields Kmkc.apply_web_field { r with username := v } fs :=
  decode_fields_opt _ _ _ _ (by simp [Kmkc.apply_web_field])
    (fun hc => by rw [hc, ← hr])

/-- Folding the `email` field of a `KMConfigWeb`. -/
theorem web_fold_email (r : Kmkc.KMConfigWeb) (v : List Nat)
    (hr : r.email = []) (fs : List (Nat × Kmkc.WireVal)) :
    Kmkc.decode_fields Kmkc.apply_web_field r
        ((if v = [] then [] else [(4, .bytes v)]) ++ fs) =
      Kmkc.decode_fields Kmkc.apply_web_field { r with email := v } fs :=
  decode_fields_opt _ _ _ _ (by simp [Kmkc.apply_web_field])
    (fun hc => by rw [hc, ← hr])

/-- Folding the `account_id` field of a `KMConfigWeb`. -/
theorem web_fold_account (r : Kmkc.KMConfigWeb) (v : Nat)
    (hr : r.account_id = 0) (fs : List (Nat × Kmkc.WireVal)) :
    Kmkc.decode_fields Kmkc.apply_web_field r
        ((if v = 0 then [] else [(5, .vint v)]) ++ fs) =
      Kmkc.decode_fields Kmkc.apply_web_field { r with account_id := v } fs :=
  decode_fields_opt _ _ _ _ (by simp [Kmkc.apply_web_field])
    (fun hc => by rw [hc, ← hr])

/-- Folding the `device_id` field of a `KMConfigWeb`. -/
theorem web_fold_device (r : Kmkc.KMConfigWeb) (v : Nat)
    (hr : r.device_id = 0) (fs : List (Nat × Kmkc.WireVal)) :
    Kmkc.decode_fields Kmkc.apply_web_field r
        ((if v = 0 then [] else [(6, .vint v)]) ++ fs) =
      Kmkc.decode_fields Kmkc.apply_web_field { r with device_id := v } fs :=
  decode_fields_opt _ _ _ _ (by simp [Kmkc.apply_web_field])
    (fun hc => by rw [hc, ← hr])

/-- Folding the `uwt` field of a `KMConfigWeb`. -/
theorem web_fold_uwt (r : Kmkc.KMConfigWeb) (v : List Nat)
    (hr : r.uwt = []) (fs : List (Nat × Kmkc.WireVal)) :
    Kmkc.decode_fields Kmkc.apply_web_field r
        ((if v = [] then [] else [(100, .bytes v)]) ++ fs) =
      Kmkc.decode_fields Kmkc.apply_web_field { r with uwt := v } fs :=
  decode_fields_opt _ _ _ _ (by simp [Kmkc.apply_web_field])
    (fun hc => by rw [hc, ← hr])

/-- Folding the `birthday` field of a `KMConfigWeb`. -/
theorem web_fold_birthday (r : Kmkc.KMConfigWeb) (kv : Kmkc.KMConfigWebKV)
    (hr : r.birthday = Kmkc.default_kv) (fs : List (Nat × Kmkc.WireVal)) :
    Kmkc.decode_fields Kmkc.apply_web_field r
        ((if kv = Kmkc.default_kv then []
          else [(101, .bytes kv.toBytes)]) ++ fs) =
      Kmkc.decode_fields Kmkc.apply_web_field { r with birthday := kv } fs :=
  decode_fields_opt _ _ _ _ (by simp [Kmkc.apply_web_field, kv_roundtrip])
    (fun hc => by rw [hc, ← hr])

/-- Folding the `tos_adult` field of a `KMConfigWeb`. -/
theorem web_fold_tos (r : Kmkc.KMConfigWeb) (kv : Kmkc.KMConfigWebKV)
    (hr : r.tos_adult = Kmkc.default_kv) (fs : List (Nat × Kmkc.WireVal)) :
    Kmkc.decode_fields Kmkc.apply_web_field r
        ((if kv = Kmkc.default_kv then []
          else [(102, .bytes kv.toBytes)]) ++ fs) =
      Kmkc.decode_fields Kmkc.apply_web_field { r with tos_adult := kv } fs :=
  decode_fields_opt _ _ _ _ (by simp [Kmkc.apply_web_field, kv_roundtrip])
    (fun hc => by rw [hc, ← hr])

/-- Folding the `privacy` field of a `KMConfigWeb`. -/
theorem web_fold_privacy (r : Kmkc.KMConfigWeb) (kv : Kmkc.KMConfigWebKV)
    (hr : r.privacy = Kmkc.default_kv) (fs : List (Nat × Kmkc.WireVal)) :
    Kmkc.decode_fields Kmkc.apply_web_field r
        ((if kv = Kmkc.default_kv then []
          else [(103, .bytes kv.toBytes)]) ++ fs) =
      Kmkc.decode_fields Kmkc.apply_web_field { r with privacy := kv } fs :=
  decode_fields_opt _ _ _ _ (by simp [Kmkc.apply_web_field, kv_roundtrip])
    (fun hc => by rw [hc, ← hr])

/-- Round trip for the web session-config record. -/
theorem web_roundtrip (c : Kmkc.KMConfigWeb) :
    Kmkc.KMConfigWeb.FromString c.toBytes = some c := by
  have hr := reads_string_field 1 c.id
    (reads_varint_field 2 c.type
      (reads_string_field 3 c.username
        (reads_string_field 4 c.email
          (reads_varint_field 5 c.account_id
            (reads_varint_field 6 c.device_id
              (reads_string_field 100 c.uwt
                (reads_kv_field 101 c.birthday
                  (reads_kv_field 102 c.tos_adult
                    (reads_kv_field 103 c.privacy Kmkc.Reads.nil)))))))))
  have hbytes : c.toBytes =
      Kmkc.encode_string_field 1 c.id ++
        (Kmkc.encode_varint_field 2 c.type ++
          (Kmkc.encode_string_field 3 c.username ++
            (Kmkc.encode_string_field 4 c.email ++
              (Kmkc.encode_varint_field 5 c.account_id ++
                (Kmkc.encode_varint_field 6 c.device_id ++
                  (Kmkc.encode_string_field 100 c.uwt ++
                    (Kmkc.encode_kv_field 101 c.birthday ++
                      (Kmkc.encode_kv_field 102 c.tos_adult ++
                        (Kmkc.encode_kv_field 103 c.privacy ++ []))))))))) := by
    simp [Kmkc.KMConfigWeb.toBytes]
  rw [Kmkc.KMConfigWeb.FromString, hbytes, parse_records_of_reads hr]
  dsimp only
  rw [web_fold_id, web_fold_type, web_fold_username, web_fold_email,
    web_fold_account, web_fold_device, web_fold_uwt, web_fold_birthday,
    web_fold_tos, web_fold_privacy]
  all_goals rfl

/-- Folding the `id` field of a `KMConfigMobile`. -/
theorem mobile_fold_id (r : Kmkc.KMConfigMobile) (v : List Nat)
    (hr : r.id = []) (fs : List (Nat × Kmkc.WireVal)) :
    Kmkc.decode_fields Kmkc.apply_mobile_field r
        ((if v = [] then [] else [(1, .bytes v)]) ++ fs) =
      Kmkc.decode_fields Kmkc.apply_mobile_field { r with id := v } fs :=
  decode_fields_opt _ _ _ _ (by simp [Kmkc.apply_mobile_field])
    (fun hc => by rw [hc, ← hr])

/-- Folding the `type` field of a `KMConfigMobile`. -/
theorem mobile_fold_type (r : Kmkc.KMConfigMobile) (v : Nat)
    (hr : r.type = 0) (fs : List (Nat × Kmkc.WireVal)) :
    Kmkc.decode_fields Kmkc.apply_mobile_field r
        ((if v = 0 then [] else [(2, .vint v)]) ++ fs) =
      Kmkc.decode_fields Kmkc.apply_mobile_field { r with type := v } fs :=
  decode_fields_opt _ _ _ _ (by simp [Kmkc.apply_mobile_field])
    (fun hc => by rw [hc, ← hr])

/-- Folding the `username` field of a `KMConfigMobile`. -/
theorem mobile_fold_username (r : Kmkc.KMConfigMobile) (v : List Nat)
    (hr : r.username = []) (fs : List (Nat × Kmkc.WireVal)) :
    Kmkc.decode_fields Kmkc.apply_mobile_field r
        ((if v = [] then [] else [(3, .bytes v)]) ++ fs) =
      Kmkc.decode_fields Kmkc.apply_mobile_field { r with username := v } fs :=
  decode_fields_opt _ _ _ _ (by simp [Kmkc.apply_mobile_field])
    (fun hc => by rw [hc, ← hr])

/-- Folding the `email` field of a `KMConfigMobile`. -/
theorem mobile_fold_email (r : Kmkc.KMConfigMobile) (v : List Nat)
    (hr : r.email = []) (fs : List (Nat × Kmkc.WireVal)) :
    Kmkc.decode_fields Kmkc.apply_mobile_field r
        ((if v = [] then [] else [(4, .bytes v)]) ++ fs) =
      Kmkc.decode_fields Kmkc.apply_mobile_field { r with email := v } fs :=
  decode_fields_opt _ _ _ _ (by simp [Kmkc.apply_mobile_field])
    (fun hc => by rw [hc, ← hr])

/-- Folding the `account_id` field of a `KMConfigMobile`. -/
theorem mobile_fold_account (r : Kmkc.KMConfigMobile) (v : Nat)
    (hr : r.account_id = 0) (fs : List (Nat × Kmkc.WireVal)) :
    Kmkc.decode_fields Kmkc.apply_mobile_field r
        ((if v = 0 then [] else [(5, .vint v)]) ++ fs) =
      Kmkc.decode_fields Kmkc.apply_mobile_field
        { r with account_id := v } fs :=
  decode_fields_opt _ _ _ _ (by simp [Kmkc.apply_mobile_field])
    (fun hc => by rw [hc, ← hr])

/-- Folding the `device_id` field of a `KMConfigMobile`. -/
theorem mobile_fold_device (r : Kmkc.KMConfigMobile) (v : Nat)
    (hr : r.device_id = 0) (fs : List (Nat × Kmkc.WireVal)) :
    Kmkc.decode_fields Kmkc.apply_mobile_field r
        ((if v = 0 then [] else [(6, .vint v)]) ++ fs) =
      Kmkc.decode_fields Kmkc.apply_mobile_field
        { r with device_id := v } fs :=
  decode_fields_opt _ _ _ _ (by simp [Kmkc.apply_mobile_field])
    (fun hc => by rw [hc, ← hr])

/-- Folding the `user_id` field of a `KMConfigMobile`. -/
theorem mobile_fold_user_id (r : Kmkc.KMConfigMobile) (v : List Nat)
    (hr : r.user_id = []) (fs : List (Nat × Kmkc.WireVal)) :
    Kmkc.decode_fields Kmkc.apply_mobile_field r
        ((if v = [] then [] else [(100, .bytes v)]) ++ fs) =
      Kmkc.decode_fields Kmkc.apply_mobile_field { r with user_id := v } fs :=
  decode_fields_opt _ _ _ _ (by simp [Kmkc.apply_mobile_field])
    (fun hc => by rw [hc, ← hr])

/-- Folding the `user_secret` field of a `KMConfigMobile`. -/
theorem mobile_fold_user_secret (r : Kmkc.KMConfigMobile) (v : List Nat)
    (hr : r.user_secret = []) (fs : List (Nat × Kmkc.WireVal)) :
    Kmkc.decode_fields Kmkc.apply_mobile_field r
        ((if v = [] then [] else [(101, .bytes v)]) ++ fs) =
      Kmkc.decode_fields Kmkc.apply_mobile_field
        { r with user_secret := v } fs :=
  decode_fields_opt _ _ _ _ (by simp [Kmkc.apply_mobile_field])
    (fun hc => by rw [hc, ← hr])

/-- Round trip for the mobile session-config record. -/
theorem mobile_roundtrip (c : Kmkc.KMConfigMobile) :
    Kmkc.KMConfigMobile.FromString c.toBytes = some c := by
  have hr := reads_string_field 1 c.id
    (reads_varint_field 2 c.type
      (reads_string_field 3 c.username
        (reads_string_field 4 c.email
          (reads_varint_field 5 c.account_id
            (reads_varint_field 6 c.device_id
              (reads_string_field 100 c.user_id
                (reads_string_field 101 c.user_secret Kmkc.Reads.nil)))))))
  have hbytes : c.toBytes =
      Kmkc.encode_string_field 1 c.id ++
        (Kmkc.encode_varint_field 2 c.type ++
          (Kmkc.encode_string_field 3 c.username ++
            (Kmkc.encode_string_field 4 c.email ++
              (Kmkc.encode_varint_field 5 c.account_id ++
                (Kmkc.encode_varint_field 6 c.device_id ++
                  (Kmkc.encode_string_field 100 c.user_id ++
                    (Kmkc.encode_string_field 101 c.user_secret ++
                      []))))))) := by
    simp [Kmkc.KMConfigMobile.toBytes]
  rw [Kmkc.KMConfigMobile.FromString, hbytes, parse_records_of_reads hr]
  dsimp only
  rw [mobile_fold_id, mobile_fold_type, mobile_fold_username,
    mobile_fold_email, mobile_fold_account, mobile_fold_device,
    mobile_fold_user_id, mobile_fold_user_secret]
  all_goals rfl

/-- Folding the `id` field into a `_KMConfigBase`. -/
theorem base_fold_id (r : Kmkc.KMConfigBase) (v : List Nat)
    (hr : r.id = []) (fs : List (Nat × Kmkc.WireVal)) :
    Kmkc.decode_fields Kmkc.apply_base_field r
        ((if v = [] then [] else [(1, .bytes v)]) ++ fs) =
      Kmkc.decode_fields Kmkc.apply_base_field { r with id := v } fs :=
  decode_fields_opt _ _ _ _ (by simp [Kmkc.apply_base_field])
    (fun hc => by rw [hc, ← hr])

/-- Folding the `type` field into a `_KMConfigBase`. -/
theorem base_fold_type (r : Kmkc.KMConfigBase) (v : Nat)
    (hr : r.type = 0) (fs : List (Nat × Kmkc.WireVal)) :
    Kmkc.decode_fields Kmkc.apply_base_field r
        ((if v = 0 then [] else [(2, .vint v)]) ++ fs) =
      Kmkc.decode_fields Kmkc.apply_base_field { r with type := v } fs :=
  decode_fields_opt _ _ _ _ (by simp [Kmkc.apply_base_field])
    (fun hc => by rw [hc, ← hr])

/-- A `_KMConfigBase` fold skips every field number other than 1 and 2. -/
theorem base_fold_skip (r : Kmkc.KMConfigBase) (cond : Prop) [Decidable cond]
    (fnum : Nat) (w : Kmkc.WireVal) (fs : List (Nat × Kmkc.WireVal))
    (hf1 : fnum ≠ 1) (hf2 : fnum ≠ 2) :
    Kmkc.decode_fields Kmkc.apply_base_field r
        ((if cond then [] else [(fnum, w)]) ++ fs) =
      Kmkc.decode_fields Kmkc.apply_base_field r fs :=
  decode_fields_opt _ _ _ _ (by simp [Kmkc.apply_base_field, hf1, hf2])
    (fun _ => rfl)

/-- The base (type-tag) decoder applied to an encoded web record recovers
the web record's `id` and `type`. -/
theorem base_fromstring_web (c : Kmkc.KMConfigWeb) :
    Kmkc.KMConfigBase.FromString c.toBytes = some ⟨c.id, c.type⟩ := by
  have hr := reads_string_field 1 c.id
    (reads_varint_field 2 c.type
      (reads_string_field 3 c.username
        (reads_string_field 4 c.email
          (reads_varint_field 5 c.account_id
            (reads_varint_field 6 c.device_id
              (reads_string_field 100 c.uwt
                (reads_kv_field 101 c.birthday
                  (reads_kv_field 102 c.tos_adult
                    (reads_kv_field 103 c.privacy Kmkc.Reads.nil)))))))))
  have hbytes : c.toBytes =
      Kmkc.encode_string_field 1 c.id ++
        (Kmkc.encode_varint_field 2 c.type ++
          (Kmkc.encode_string_field 3 c.username ++
            (Kmkc.encode_string_field 4 c.email ++
              (Kmkc.encode_varint_field 5 c.account_id ++
                (Kmkc.encode_varint_field 6 c.device_id ++
                  (Kmkc.encode_string_field 100 c.uwt ++
                    (Kmkc.encode_kv_field 101 c.birthday ++
                      (Kmkc.encode_kv_field 102 c.tos_adult ++
                        (Kmkc.encode_kv_field 103 c.privacy ++ []))))))))) := by
    simp [Kmkc.KMConfigWeb.toBytes]
  rw [Kmkc.KMConfigBase.FromString, hbytes, parse_records_of_reads hr]
  dsimp only
  rw [base_fold_id, base_fold_type,
    base_fold_skip _ _ 3 _ _ (by omega) (by omega),
    base_fold_skip _ _ 4 _ _ (by omega) (by omega),
    base_fold_skip _ _ 5 _ _ (by omega) (by omega),
    base_fold_skip _ _ 6 _ _ (by omega) (by omega),
    base_fold_skip _ _ 100 _ _ (by omega) (by omega),
    base_fold_skip _ _ 101 _ _ (by omega) (by omega),
    base_fold_skip _ _ 102 _ _ (by omega) (by omega),
    base_fold_skip _ _ 103 _ _ (by omega) (by omega)]
  all_goals rfl

/-- The base (type-tag) decoder applied to an encoded mobile record recovers
the mobile record's `id` and `type`. -/
theorem base_fromstring_mobile (c : Kmkc.KMConfigMobile) :
    Kmkc.KMConfigBase.FromString c.toBytes = some ⟨c.id, c.type⟩ := by
  have hr := reads_string_field 1 c.id
    (reads_varint_field 2 c.type
      (reads_string_field 3 c.username
        (reads_string_field 4 c.email
          (reads_varint_field 5 c.account_id
            (reads_varint_field 6 c.device_id
              (reads_string_field 100 c.user_id
                (reads_string_field 101 c.user_secret Kmkc.Reads.nil)))))))
  have hbytes : c.toBytes =
      Kmkc.encode_string_field 1 c.id ++
        (Kmkc.encode_varint_field 2 c.type ++
          (Kmkc.encode_string_field 3 c.username ++
            (Kmkc.encode_string_field 4 c.email ++
              (Kmkc.encode_varint_field 5 c.account_id ++
                (Kmkc.encode_varint_field 6 c.device_id ++
                  (Kmkc.encode_string_field 100 c.user_id ++
                    (Kmkc.encode_string_field 101 c.user_secret ++
                      []))))))) := by
    simp [Kmkc.KMConfigMobile.toBytes]
  rw [Kmkc.KMConfigBase.FromString, hbytes, parse_records_of_reads hr]
  dsimp only
  rw [base_fold_id, base_fold_type,
    base_fold_skip _ _ 3 _ _ (by omega) (by omega),
    base_fold_skip _ _ 4 _ _ (by omega) (by omega),
    base_fold_skip _ _ 5 _ _ (by omega) (by omega),
    base_fold_skip _ _ 6 _ _ (by omega) (by omega),
    base_fold_skip _ _ 100 _ _ (by omega) (by omega),
    base_fold_skip _ _ 101 _ _ (by omega) (by omega)]
  all_goals rfl

/-- C9: serializing a session config record of either variant and decoding
the bytes reproduces identical field values; decoding only the leading
`_KMConfigBase` fields of those bytes yields the record's own `id` and type
tag, and the loader's tag-based dispatch (`load_config`, the core of
`get_config` / `get_all_config`) therefore selects the decoder of the
variant that was written. -/
theorem config_roundtrip_and_dispatch (cw : Kmkc.KMConfigWeb)
    (cm : Kmkc.KMConfigMobile) (hw : cw.type = 2) (hm : cm.type = 1) :
    Kmkc.KMConfigWeb.FromString cw.toBytes = some cw ∧
    Kmkc.KMConfigMobile.FromString cm.toBytes = some cm ∧
    Kmkc.KMConfigBase.FromString cw.toBytes = some ⟨cw.id, cw.type⟩ ∧
    Kmkc.KMConfigBase.FromString cm.toBytes = some ⟨cm.id, cm.type⟩ ∧
    Kmkc.load_config cw.toBytes = .ok (.web cw) ∧
    Kmkc.load_config cm.toBytes = .ok (.mobile cm) := by
  refine ⟨web_roundtrip cw, mobile_roundtrip cm, base_fromstring_web cw,
    base_fromstring_mobile cm, ?_, ?_⟩
  · rw [Kmkc.load_config, base_fromstring_web cw]
    dsimp only
    rw [if_pos hw, web_roundtrip cw]
  · rw [Kmkc.load_config, base_fromstring_mobile cm]
    dsimp only
    rw [if_neg (by omega), if_pos hm, mobile_roundtrip cm]

/-- Witness for C9: a concrete web record (type tag `2`) and a concrete
mobile record (type tag `1`) both load back as themselves. -/
theorem config_roundtrip_and_dispatch_witness :
    Kmkc.load_config
        (Kmkc.KMConfigWeb.toBytes
          ⟨[104], 2, [], [], 0, 0, [], ⟨[], 0⟩, ⟨[], 0⟩, ⟨[], 0⟩⟩) =
      .ok (.web ⟨[104], 2, [], [], 0, 0, [], ⟨[], 0⟩, ⟨[], 0⟩, ⟨[], 0⟩⟩) ∧
    Kmkc.load_config
        (Kmkc.KMConfigMobile.toBytes ⟨[107], 1, [], [], 0, 0, [], []⟩) =
      .ok (.mobile ⟨[107], 1, [], [], 0, 0, [], []⟩) :=
  ⟨(config_roundtrip_and_dispatch
      ⟨[104], 2, [], [], 0, 0, [], ⟨[], 0⟩, ⟨[], 0⟩, ⟨[], 0⟩⟩
      ⟨[107], 1, [], [], 0, 0, [], []⟩ rfl rfl).2.2.2.2.1,
   (config_roundtrip_and_dispatch
      ⟨[104], 2, [], [], 0, 0, [], ⟨[], 0⟩, ⟨[], 0⟩, ⟨[], 0⟩⟩
      ⟨[107], 1, [], [], 0, 0, [], []⟩ rfl rfl).2.2.2.2.2⟩

/-- C4 (counterexample): a directory with a well-formed web file, a file
whose type tag is the unknown value `3`, and a well-formed mobile file.
Both well-formed files load on their own, yet `get_all_config` returns only
the unknown-variant error: the well-formed files are *not* decoded and
returned, refuting the claim that the error does not abort loading of the
other accounts' files. -/
theorem get_all_config_unknown_tag_counterexample :
    Kmkc.get_all_config
        [Kmkc.KMConfigWeb.toBytes
            ⟨[104], 2, [], [], 0, 0, [], ⟨[], 0⟩, ⟨[], 0⟩, ⟨[], 0⟩⟩,
         Kmkc.encode_varint_field 2 3,
         Kmkc.KMConfigMobile.toBytes ⟨[107], 1, [], [], 0, 0, [], []⟩] =
      .error "Unknown device type" ∧
    Kmkc.load_config
        (Kmkc.KMConfigWeb.toBytes
          ⟨[104], 2, [], [], 0, 0, [], ⟨[], 0⟩, ⟨[], 0⟩, ⟨[], 0⟩⟩) =
      .ok (.web ⟨[104], 2, [], [], 0, 0, [], ⟨[], 0⟩, ⟨[], 0⟩, ⟨[], 0⟩⟩) ∧
    Kmkc.load_config
        (Kmkc.KMConfigMobile.toBytes ⟨[107], 1, [], [], 0, 0, [], []⟩) =
      .ok (.mobile ⟨[107], 1, [], [], 0, 0, [], []⟩) :=
  ⟨rfl, rfl, rfl⟩

/-- C4 (amended): when the loader meets a session file whose type tag
matches no known variant it raises the unknown-variant error, and the raise
propagates out of the loading loop: the whole `get_all_config` call fails
with that error and none of the other accounts' files — not even the
well-formed ones — are returned. -/
theorem get_all_config_unknown_tag_aborts (pre : List (List Nat))
    (f : List Nat) (post : List (List Nat)) (e : String)
    (hok : ∀ g ∈ pre, ∃ c, Kmkc.load_config g = .ok c)
    (hf : Kmkc.load_config f = .error e) :
    Kmkc.get_all_config (pre ++ f :: post) = .error e := by
  induction pre with
  | nil =>
    rw [List.nil_append]
    simp only [Kmkc.get_all_config]
    rw [hf]
  | cons g gs ih =>
    obtain ⟨c, hc⟩ := hok g (by simp)
    rw [List.cons_append]
    simp only [Kmkc.get_all_config]
    rw [hc, ih (fun x hx => hok x (by simp [hx]))]

/-- Witness for C4 (amended) at the counterexample's directory contents. -/
theorem get_all_config_unknown_tag_aborts_witness :
    Kmkc.get_all_config
        ([Kmkc.KMConfigWeb.toBytes
            ⟨[104], 2, [], [], 0, 0, [], ⟨[], 0⟩, ⟨[], 0⟩, ⟨[], 0⟩⟩] ++
          Kmkc.encode_varint_field 2 3 ::
            [Kmkc.KMConfigMobile.toBytes ⟨[107], 1, [], [], 0, 0, [], []⟩]) =
      .error "Unknown device type" :=
  get_all_config_unknown_tag_aborts _ _ _ _
    (fun g hg => by
      rw [List.mem_singleton] at hg
      subst hg
      exact ⟨.web ⟨[104], 2, [], [], 0, 0, [], ⟨[], 0⟩, ⟨[], 0⟩, ⟨[], 0⟩⟩,
        rfl⟩)
    rfl
